import Mathlib

/-!
Shallow embedding of `src/source/server/render.js` from the `react-pages`
repository (server-side rendering orchestrator).

Modelling conventions:
  * The two awaited external calls (the State Initializer `reduxInitialize`
    and the Page Renderer `reduxRender`) are modelled by their outcomes,
    passed to `render` as inputs: `Except Err InitResult` for the awaited
    initializer result and a function producing `Except Err PageRenderResult`
    for the page renderer.
  * A JavaScript exception is modelled as `Except.error`; `try/catch` is
    modelled by matching on the `Except` value of the protected region.
  * Node streams are modelled as lists of stream pieces; `createStringStream`
    yields a `.str` piece, `ReactDOM.renderToNodeStream` on the page element
    yields a `.node` piece, and `combineStreams` is list concatenation
    (the combined stream is the sequence of its pieces, order preserved).
  * The user-supplied error handler `onError(error, parameters)` is modelled
    as a function returning the list of arguments it passes to the provided
    `redirect` callback, in call order; the closure that records only the
    first redirect is `redirectStep` / `runRedirectCalls`.
  * Timing: `timer()` measurement is modelled by passing the measured
    duration of the initializer call as the input `initializeDuration`.
  * The JavaScript object spread `\x7b...time, initialize: t\x7d` is modelled on
    association lists by `objectSet`, with `objectGet` as field lookup.
-/

namespace ReactPages

/-- Modelled from the spec: the repository module `../location` is not under
`src/`. A parsed URL: origin (empty for a relative URL), pathname, query
string and hash fragment, serialized back by `getLocationUrl`. -/
structure Location where
  origin : String := ""
  pathname : String := ""
  search : String := ""
  hash : String := ""
deriving DecidableEq

/-- Whether the first character list is a prefix of the second. -/
def charsPrefix : List Char → List Char → Bool
  | [], _ => true
  | _ :: _, [] => false
  | a :: as, b :: bs => a == b && charsPrefix as bs

/-- Split a character list at the first occurrence of a separator sequence,
returning the part before it and the part after it. -/
def splitOnceAux (sep : List Char) : List Char → Option (List Char × List Char)
  | [] => none
  | c :: cs =>
    if charsPrefix sep (c :: cs) then some ([], (c :: cs).drop sep.length)
    else
      match splitOnceAux sep cs with
      | none => none
      | some (pre, post) => some (c :: pre, post)

/-- Split a string at the first occurrence of a separator, keeping the rest
(with further separators) as the second component. -/
def splitOnce (s sep : String) : String × Option String :=
  match splitOnceAux sep.data s.data with
  | none => (s, none)
  | some (pre, post) => (⟨pre⟩, some ⟨post⟩)

/-- Modelled from the spec: the repository function `parseLocation` from
`../location` is not under `src/`. Splits a URL into path and query
components (and hash); an absolute URL keeps its origin. -/
def parseLocation (url : String) : Location :=
  let (beforeHash, hashRest) := splitOnce url "#"
  let hash := match hashRest with
    | none => ""
    | some h => "#" ++ h
  let (beforeSearch, searchRest) := splitOnce beforeHash "?"
  let search := match searchRest with
    | none => ""
    | some q => "?" ++ q
  match splitOnce beforeSearch "://" with
  | (_, none) => { origin := "", pathname := beforeSearch, search := search, hash := hash }
  | (scheme, some rest) =>
    let (host, pathRest) := splitOnce rest "/"
    let pathname := match pathRest with
      | none => "/"
      | some p => "/" ++ p
    { origin := scheme ++ "://" ++ host, pathname := pathname, search := search, hash := hash }

/-- Options for `getLocationUrl` (the `\x7b basename \x7d` argument). -/
structure LocationUrlOptions where
  basename : Option String := none

/-- Modelled from the spec: the repository function `getLocationUrl` from
`../location` is not under `src/`. Fully serializes a location, prepending
the basename when the target is relative (empty origin). Pure function. -/
def getLocationUrl (loc : Location) (options : LocationUrlOptions := {}) : String :=
  let base :=
    match options.basename with
    | some b => if loc.origin = "" then b else ""
    | none => ""
  loc.origin ++ base ++ loc.pathname ++ loc.search ++ loc.hash

/-- Errors: a configuration error thrown by the outer-HTML generator
(carrying its message), or an error produced by an external call
(initializer or page renderer), carrying an identity tag. -/
inductive Err where
  | config : String → Err
  | runtime : String → Err
deriving DecidableEq

/-- The message of an error (`error.message`). -/
def Err.message : Err → String
  | .config m => m
  | .runtime m => m

/-- The `javascript` sub-object of the asset descriptor (`assets.javascript`). -/
structure JsAssets where
  main : Option String := none
deriving DecidableEq

/-- The asset descriptor: an optional explicit list of build entries and an
optional javascript asset table (`assets.entries`, `assets.javascript`).
A missing `entries` field is `none` (JavaScript `!assets.entries`). -/
structure AssetsCfg where
  entries : Option (List String) := none
  javascript : Option JsAssets := none
deriving DecidableEq

/-- The Redux store handle exposed through the initializer parameters
(only `getState` is consumed by this module; its value is opaque here). -/
structure Store where
  getState : String := ""
deriving DecidableEq

/-- The render parameters produced by the State Initializer after
destructuring away `cookies` and `generateJavascript` (the source rest
object `...parameters`); the store handle plus an opaque payload. -/
structure Params where
  store : Store := {}
  payload : String := ""
deriving DecidableEq

/-- A configuration value that is either a literal or a function of
`(path, parameters)` (the source normalizes with
`typeof v === \x27function\x27 ? v(path, parameters) : v`). -/
inductive ValueOrFn (α : Type) where
  | value : α → ValueOrFn α
  | func : (String → Params → α) → ValueOrFn α

/-- Resolve a literal-or-function configuration value at `(path, parameters)`. -/
def ValueOrFn.resolve {α : Type} : ValueOrFn α → String → Params → α
  | .value v, _, _ => v
  | .func f, path, params => f path params

/-- The `html` option: optional `head`, `bodyStart`, `bodyEnd` modifiers,
each a literal or a function of `(path, parameters)`. -/
structure HtmlCfg where
  head : Option (ValueOrFn String) := none
  bodyStart : Option (ValueOrFn String) := none
  bodyEnd : Option (ValueOrFn String) := none

/-- The resolved value of the State Initializer
(`await reduxInitialize(...)` destructured): cookies to set, the result of
the bootstrap-script generator `generateJavascript`, and the remaining
render parameters. -/
structure InitResult where
  cookies : List String := []
  generateJavascript : String := ""
  parameters : Params := {}
deriving DecidableEq

/-- The authentication sub-configuration (`settings.authentication`). -/
structure AuthenticationSettings where
  protectedCookie : Option String := none
deriving DecidableEq

/-- The context object handed to the configured error handler
(`onErrorParameters` in the source), minus the `redirect` callback, which
is modelled separately by `redirectStep` / `runRedirectCalls`. -/
structure OnErrorParameters where
  server : Bool
  path : String
  url : String
  getState : String
deriving DecidableEq

/-- Normalized settings consumed by `render`: routes table, root container
component reference (opaque tag), authentication sub-config, error handler
and basename. The handler is modelled as returning the list of targets it
passes to its `redirect` callback, in call order. -/
structure Settings where
  routes : String := ""
  container : String := ""
  authentication : Option AuthenticationSettings := none
  onError : Option (Err → OnErrorParameters → List String) := none
  basename : Option String := none

/-- Modelled from the spec: the repository module `../redux/normalize` is not
under `src/`. Normalization validates and defaults the settings record; on
the already-structured record (defaults supplied by the structure fields) it
acts as the identity, with no side effects. -/
def normalizeSettings (settings : Settings) : Settings := settings

/-- The per-request options object (second argument of the render entry
point). The source field `initialize` is named `initializeHook` here. -/
structure RenderOptions where
  initializeHook : String := ""
  assets : ValueOrFn AssetsCfg := .value {}
  proxy : String := ""
  url : String := ""
  renderContent : Option Bool := none
  html : HtmlCfg := {}
  cookies : String → Option String := fun _ => none
  locales : List String := []

/-- The page element built by `React.createElement(container, containerProps,
content)`. -/
structure PageElement where
  container : String
  props : String
  content : String
deriving DecidableEq

/-- A piece of the output stream: a string stream (`createStringStream`) or
the rendered page element stream (`ReactDOM.renderToNodeStream`). -/
inductive StreamPiece where
  | str : String → StreamPiece
  | node : PageElement → StreamPiece
deriving DecidableEq

/-- The resolved value of the Page Renderer (`await render(\x7b ...parameters,
routes \x7d)` destructured): redirect descriptor, route, status, content,
meta, container props and timing fields (as an association list). -/
structure PageRenderResult where
  redirect : Option Location := none
  route : String := ""
  status : Nat := 200
  content : String := ""
  meta : List (String × String) := []
  containerProps : String := ""
  time : List (String × Nat) := []
deriving DecidableEq

/-- A content result: route, HTTP status, output stream, timing breakdown
(`none` models the absence of the `time` field) and cookies to set. -/
structure ContentResult where
  route : String
  status : Nat
  content : List StreamPiece
  time : Option (List (String × Nat))
  cookies : List String
deriving DecidableEq

/-- The render result union: a redirect descriptor (serialized URL) or a
content descriptor. -/
inductive RenderResult where
  | redirect : String → RenderResult
  | content : ContentResult → RenderResult
deriving DecidableEq

instance {ε α : Type} [DecidableEq ε] [DecidableEq α] : DecidableEq (Except ε α) := fun a b =>
  match a, b with
  | .ok x, .ok y =>
    if h : x = y then .isTrue (congrArg Except.ok h)
    else .isFalse (fun hc => h (Except.ok.inj hc))
  | .error x, .error y =>
    if h : x = y then .isTrue (congrArg Except.error h)
    else .isFalse (fun hc => h (Except.error.inj hc))
  | .ok _, .error _ => .isFalse (fun hc => Except.noConfusion hc)
  | .error _, .ok _ => .isFalse (fun hc => Except.noConfusion hc)

/-- The outcome of one render call: the resolved-or-rejected result, plus an
instrumentation flag recording whether the configured error handler was
invoked during the call. -/
structure RenderReturn where
  result : Except Err RenderResult
  handlerInvoked : Bool
deriving DecidableEq

/-- JavaScript object field lookup on an association list. -/
def objectGet (fields : List (String × Nat)) (key : String) : Option Nat :=
  (fields.find? (fun p => p.1 == key)).map (fun p => p.2)

/-- JavaScript object spread-and-set `\x7b ...fields, key: v \x7d` on an
association list: an existing `key` keeps its position with the new value,
otherwise the field is appended. -/
def objectSet (fields : List (String × Nat)) (key : String) (v : Nat) : List (String × Nat) :=
  if fields.any (fun p => p.1 == key) then
    fields.map (fun p => if p.1 == key then (p.1, v) else p)
  else
    fields ++ [(key, v)]

/-- Strip a single trailing slash if present (the source regex replace on
the path). -/
def stripTrailingSlash (s : String) : String :=
  match s.data.getLast? with
  | some c => if c = '/' then ⟨s.data.dropLast⟩ else s
  | none => s

/-- Modelled from the spec: the repository module `../meta/meta` is not under
`src/`. Generates one meta-tag markup string per metadata entry. -/
def generateMetaTagsMarkup (meta : List (String × String)) : List String :=
  meta.map (fun kv => "<meta name=\"" ++ kv.1 ++ "\" content=\"" ++ kv.2 ++ "\"/>")

/-- Modelled from the spec: marker emitted into the after-content fragment
when content rendering was disabled. -/
def contentNotRenderedMarker : String := "<!--not-rendered-->"

/-- Arguments of the before-content HTML template. -/
structure BeforeContentArgs where
  assets : AssetsCfg
  locale : Option String
  meta : String
  head : Option String
  bodyStart : Option String

/-- Arguments of the after-content HTML template. -/
structure AfterContentArgs where
  javascript : String
  assets : AssetsCfg
  locale : Option String
  bodyEnd : Option String
  protected_cookie_value : Option String
  contentNotRendered : Bool

/-- Modelled from the spec: the repository module `./html` is not under
`src/`. The before-content fragment holds head tags, generated meta markup,
asset links and the bodyStart markup. -/
def render_before_content (args : BeforeContentArgs) : String :=
  let entryLinks := String.join
    ((args.assets.entries.getD []).map (fun e => "<link href=\"" ++ e ++ ".css\"/>"))
  "<html lang=\"" ++ (args.locale.getD "") ++ "\"><head>"
    ++ args.meta ++ (args.head.getD "") ++ entryLinks
    ++ "</head><body>" ++ (args.bodyStart.getD "")

/-- Modelled from the spec: the repository module `./html` is not under
`src/`. The after-content fragment holds the content-not-rendered marker
(when rendering was disabled), the bootstrap script content, asset script
tags and the bodyEnd markup. -/
def render_after_content (args : AfterContentArgs) : String :=
  (if args.contentNotRendered then contentNotRenderedMarker else "")
    ++ ("<script>" ++ (args.javascript ++ ("</script>"
    ++ (String.join
        ((args.assets.entries.getD []).map (fun e => "<script src=\"" ++ e ++ ".js\"></script>"))
    ++ ((args.bodyEnd.getD "") ++ "</body></html>")))))

/-- The configuration error message thrown when `assets.entries` is missing
and no default `main` javascript entry exists (a prefix of the source
message, which continues with guidance about the default Webpack entry). -/
def assetsEntriesErrorMessage : String :=
  "\"assets.entries[]\" configuration parameter is required: it includes all Webpack \"entries\" for which javascripts and styles must be included on a server-rendered page."

/-- Whether a character list occurs inside another. -/
def charsContains (sep : List Char) : List Char → Bool
  | [] => false
  | c :: cs => charsPrefix sep (c :: cs) || charsContains sep cs

/-- Whether the string mentions the `assets.entries[]` configuration
parameter. -/
def mentionsAssetsEntries (s : String) : Bool :=
  charsContains "assets.entries[]".data s.data

/-- The `assets.entries` defaulting step of `generateOuterHtml`: with an
explicit entries list the descriptor passes through; without one, entries
defaults to `["main"]` when `assets.javascript.main` exists, otherwise a
configuration error is thrown. -/
def resolveEntries (assets : AssetsCfg) : Except Err AssetsCfg :=
  match assets.entries with
  | some _ => .ok assets
  | none =>
    match assets.javascript with
    | some js =>
      match js.main with
      | some _ => .ok { assets with entries := some ["main"] }
      | none => .error (.config assetsEntriesErrorMessage)
    | none => .error (.config assetsEntriesErrorMessage)

/-- The values the `generateOuterHtml` closure captures from the enclosing
render call: the `html` and `assets` options, the current path, the
initializer parameters, the locales list, the bootstrap script content and
the protected cookie value. -/
structure OuterHtmlContext where
  html : HtmlCfg
  assets : ValueOrFn AssetsCfg
  path : String
  parameters : Params
  locales : List String
  generateJavascript : String
  protected_cookie_value : Option String

/-- The nested `generateOuterHtml(meta)` routine: resolves the
literal-or-function `html` modifiers and `assets` at `(path, parameters)`,
defaults or rejects missing `assets.entries`, picks the first locale, and
renders the before-content and after-content fragments. `renderContent` is
the value the closure reads at call time (`contentNotRendered` is
`renderContent === false`). -/
def generateOuterHtml (ctx : OuterHtmlContext) (renderContent : Option Bool)
    (meta : List (String × String)) : Except Err (String × String) :=
  match resolveEntries (ctx.assets.resolve ctx.path ctx.parameters) with
  | .error e => .error e
  | .ok assets =>
    .ok
      ( render_before_content
          { assets := assets
            locale := ctx.locales.head?
            meta := String.join (generateMetaTagsMarkup meta)
            head := ctx.html.head.map (fun v => v.resolve ctx.path ctx.parameters)
            bodyStart := ctx.html.bodyStart.map (fun v => v.resolve ctx.path ctx.parameters) },
        render_after_content
          { javascript := ctx.generateJavascript
            assets := assets
            locale := ctx.locales.head?
            bodyEnd := ctx.html.bodyEnd.map (fun v => v.resolve ctx.path ctx.parameters)
            protected_cookie_value := ctx.protected_cookie_value
            contentNotRendered := renderContent == some false } )

/-- Read the protected cookie value when authentication is configured with a
protected-cookie name (`cookies.get(authentication.protectedCookie)`). -/
def protectedCookieValue (settings : Settings) (options : RenderOptions) : Option String :=
  match settings.authentication with
  | some auth =>
    match auth.protectedCookie with
    | some name => options.cookies name
    | none => none
  | none => none

/-- Build the `OuterHtmlContext` exactly as the render call closes over it. -/
def outerHtmlContext (settings : Settings) (options : RenderOptions)
    (init : InitResult) : OuterHtmlContext :=
  { html := options.html
    assets := options.assets
    path := (parseLocation options.url).pathname
    parameters := init.parameters
    locales := options.locales
    generateJavascript := init.generateJavascript
    protected_cookie_value := protectedCookieValue settings options }

/-- Stringify the redirect location, prepending the basename to relative
URLs for a server-side redirect (the source `normalizeRedirect`). -/
def normalizeRedirect (redirect : Location) (basename : Option String) : String :=
  getLocationUrl redirect { basename := basename }

/-- One call of the `redirect` callback handed to the error handler: only the
first call records a location (`if (!redirect) redirect = parseLocation(to)`);
later calls are no-ops. -/
def redirectStep (recorded : Option Location) (target : String) : Option Location :=
  match recorded with
  | none => some (parseLocation target)
  | some r => some r

/-- The location recorded after the error handler performed the given
sequence of `redirect` calls. -/
def runRedirectCalls (calls : List String) : Option Location :=
  calls.foldl redirectStep none

/-- The `onErrorParameters` context object built in the catch block
(`server`, `path`, `url`, `getState`; the `redirect` callback is modelled by
`runRedirectCalls` over the call list the handler returns). -/
def mkOnErrorParameters (options : RenderOptions)
    (init : InitResult) : OnErrorParameters :=
  let location := parseLocation options.url
  { server := true
    path := location.pathname
    url := getLocationUrl location
    getState := init.parameters.store.getState }

/-- The stream assembly of the content branch: start with the two fixed
fragments as string streams; unless content rendering is explicitly
disabled, splice the rendered page element stream at index
`streams.length / 2` (`array.splice(index, 0, element)`). -/
def contentStreams (before_content after_content : String)
    (renderContent : Option Bool) (pageStream : StreamPiece) : List StreamPiece :=
  let streams := [StreamPiece.str before_content, StreamPiece.str after_content]
  if renderContent ≠ some false then
    List.insertIdx (streams.length / 2) pageStream streams
  else
    streams

/-- The static-shell branch body (reserved path): force `renderContent` off,
generate outer HTML with empty metadata, return a 200 content result with
no page render, no cookies and no time field. -/
def staticShellResult (ctx : OuterHtmlContext) : Except Err RenderResult :=
  match generateOuterHtml ctx (some false) [] with
  | .error e => .error e
  | .ok (before_content, after_content) =>
    .ok (.content
      { route := "/react-website-base"
        status := 200
        content := [.str (before_content ++ after_content)]
        time := none
        cookies := [] })

/-- The ordinary branch body after the Page Renderer resolved: honour a
redirect descriptor, otherwise generate outer HTML, assemble the streams
and return the content result. -/
def pageResultBody (settings : Settings) (options : RenderOptions) (init : InitResult)
    (ctx : OuterHtmlContext) (initializeDuration : Nat)
    (r : PageRenderResult) : Except Err RenderResult :=
  match r.redirect with
  | some redirect => .ok (.redirect (normalizeRedirect redirect settings.basename))
  | none =>
    match generateOuterHtml ctx options.renderContent r.meta with
    | .error e => .error e
    | .ok (before_content, after_content) =>
      .ok (.content
        { route := r.route
          status := r.status
          content := contentStreams before_content after_content options.renderContent
            (.node
              { container := settings.container
                props := r.containerProps
                content := r.content })
          time := some (objectSet r.time "initialize" initializeDuration)
          cookies := init.cookies })

/-- The protected region of the render call (the source `try` block): the
static-shell branch for the reserved path, the page render, the redirect
branch, outer HTML generation, stream assembly and the content result. -/
def renderBody (settings : Settings) (options : RenderOptions) (init : InitResult)
    (pageRender : Params → String → Except Err PageRenderResult)
    (initializeDuration : Nat) : Except Err RenderResult :=
  if stripTrailingSlash (parseLocation options.url).pathname = "/react-website-base" then
    -- `renderContent = false` is forced before generating the outer HTML.
    staticShellResult (outerHtmlContext settings options init)
  else
    match pageRender init.parameters settings.routes with
    | .error e => .error e
    | .ok r =>
      pageResultBody settings options init (outerHtmlContext settings options init)
        initializeDuration r

/-- The source `catch` block applied to the outcome of the protected region:
a resolved body passes through; an error invokes the configured error
handler (when present), honours the first redirect it requested, and
otherwise re-throws the original error. -/
def applyCatch (settings : Settings) (options : RenderOptions) (init : InitResult)
    (body : Except Err RenderResult) : RenderReturn :=
  match body with
  | .ok res => { result := .ok res, handlerInvoked := false }
  | .error error =>
    match settings.onError with
    | none => { result := .error error, handlerInvoked := false }
    | some onError =>
      let params := mkOnErrorParameters options init
      match runRedirectCalls (onError error params) with
      | some r =>
        { result := .ok (.redirect (normalizeRedirect r settings.basename))
          handlerInvoked := true }
      | none => { result := .error error, handlerInvoked := true }

/-- The render entry point. `initResult` is the awaited outcome of the State
Initializer call (which happens before the protected region); `pageRender`
is the Page Renderer, applied to the initializer parameters and the routes
table; `initializeDuration` is the measured duration of the initializer
call. -/
def render (settings : Settings) (options : RenderOptions)
    (initResult : Except Err InitResult)
    (pageRender : Params → String → Except Err PageRenderResult)
    (initializeDuration : Nat) : RenderReturn :=
  let settings := normalizeSettings settings
  match initResult with
  | .error e => { result := .error e, handlerInvoked := false }
  | .ok init =>
    applyCatch settings options init
      (renderBody settings options init pageRender initializeDuration)

/-! Sample concrete inputs used by the witness theorems. -/

/-- Sample asset descriptor with an explicit entries list. -/
def sampleAssets : AssetsCfg :=
  { entries := some ["main"], javascript := some { main := some "main.js" } }

/-- Sample asset descriptor without entries but with a `main` javascript
asset. -/
def mainOnlyAssets : AssetsCfg :=
  { entries := none, javascript := some { main := some "main.js" } }

/-- Sample asset descriptor without entries and without a `main` javascript
asset. -/
def emptyAssets : AssetsCfg := {}

/-- Sample initializer result. -/
def sampleInit : InitResult :=
  { cookies := ["sid=1"]
    generateJavascript := "BOOT()"
    parameters := { store := { getState := "state0" } } }

/-- Sample request options for an ordinary path. -/
def sampleOptions : RenderOptions :=
  { assets := .value sampleAssets, url := "/foo?a=1", locales := ["en"] }

/-- Sample request options for the reserved static-export path (with a
trailing slash). -/
def staticOptions : RenderOptions :=
  { assets := .value sampleAssets, url := "/react-website-base/", locales := ["en"] }

/-- Sample settings without an error handler. -/
def sampleSettings : Settings :=
  { routes := "routesTable", container := "AppContainer", basename := some "/app" }

/-- Sample page-renderer result for an ordinary successful render. -/
def samplePageResult : PageRenderResult :=
  { redirect := none
    route := "/foo"
    status := 200
    content := "HelloContent"
    meta := [("title", "Foo")]
    containerProps := "propsValue"
    time := [("fetch", 7)] }

/-- Sample page renderer that succeeds with `samplePageResult`. -/
def samplePageRender : Params → String → Except Err PageRenderResult :=
  fun _ _ => .ok samplePageResult

/-- Sample runtime error raised by an external call. -/
def networkError : Err := .runtime "NetworkError"

/-- Sample page renderer that rejects with `networkError`. -/
def failingPageRender : Params → String → Except Err PageRenderResult :=
  fun _ _ => .error networkError

/-- Sample error handler that requests two redirects. -/
def redirectingHandler : Err → OnErrorParameters → List String :=
  fun _ _ => ["/login", "/second"]

/-- Sample error handler that requests no redirect. -/
def silentHandler : Err → OnErrorParameters → List String :=
  fun _ _ => []

/-- Sample settings with the redirecting error handler. -/
def handlerSettings : Settings :=
  { routes := "routesTable", container := "AppContainer", basename := some "/app"
    onError := some redirectingHandler }

/-- Sample settings with the silent error handler. -/
def silentSettings : Settings :=
  { routes := "routesTable", container := "AppContainer", basename := some "/app"
    onError := some silentHandler }

/-- Sample request options whose assets have no entries and no `main`
javascript asset. -/
def badOptions : RenderOptions :=
  { assets := .value emptyAssets, url := "/foo?a=1", locales := ["en"] }

/-- Sample page-renderer result carrying a redirect descriptor. -/
def redirectPageResult : PageRenderResult :=
  { redirect := some (parseLocation "/target"), route := "/foo" }

/-- Sample page renderer that resolves to a redirect descriptor. -/
def redirectPageRender : Params → String → Except Err PageRenderResult :=
  fun _ _ => .ok redirectPageResult

/-- The outer-HTML fragments produced for `sampleOptions` on the ordinary
branch (extracted from `generateOuterHtml`). -/
def sampleOuter : String × String :=
  match generateOuterHtml (outerHtmlContext sampleSettings sampleOptions sampleInit)
      sampleOptions.renderContent samplePageResult.meta with
  | .ok p => p
  | .error _ => ("", "")

/-- The outer-HTML fragments produced for `staticOptions` on the
static-shell branch (extracted from `generateOuterHtml`). -/
def staticOuter : String × String :=
  match generateOuterHtml (outerHtmlContext sampleSettings staticOptions sampleInit)
      (some false) [] with
  | .ok p => p
  | .error _ => ("", "")

/-! Helper lemmas. -/

/-- Once a redirect is recorded, further `redirect` calls leave it unchanged. -/
lemma foldl_redirectStep_some (l : Location) (calls : List String) :
    calls.foldl redirectStep (some l) = some l := by
  induction calls with
  | nil => rfl
  | cons c cs ih => simpa [redirectStep] using ih

/-- The recorded redirect is the parse of the first requested target. -/
lemma runRedirectCalls_cons (c : String) (cs : List String) :
    runRedirectCalls (c :: cs) = some (parseLocation c) := by
  simp [runRedirectCalls, redirectStep, foldl_redirectStep_some]

/-- With no `redirect` calls, no redirect is recorded. -/
lemma runRedirectCalls_nil : runRedirectCalls [] = none := rfl

/-- Render unwraps a successful protected region without touching the error
handler. -/
lemma render_of_body_ok {settings : Settings} {options : RenderOptions}
    {init : InitResult} {pageRender : Params → String → Except Err PageRenderResult}
    {d : Nat} {res : RenderResult}
    (h : renderBody settings options init pageRender d = .ok res) :
    render settings options (.ok init) pageRender d =
      { result := .ok res, handlerInvoked := false } := by
  have e1 : render settings options (.ok init) pageRender d
      = applyCatch settings options init
          (renderBody settings options init pageRender d) := rfl
  rw [e1, h]
  rfl

/-- With no error handler, a protected-region error propagates raw. -/
lemma render_of_body_error_noHandler {settings : Settings} {options : RenderOptions}
    {init : InitResult} {pageRender : Params → String → Except Err PageRenderResult}
    {d : Nat} {e : Err}
    (h : renderBody settings options init pageRender d = .error e)
    (hh : settings.onError = none) :
    render settings options (.ok init) pageRender d =
      { result := .error e, handlerInvoked := false } := by
  have e1 : render settings options (.ok init) pageRender d
      = applyCatch settings options init
          (renderBody settings options init pageRender d) := rfl
  rw [e1, h]
  unfold applyCatch
  rw [hh]

/-- With an error handler, a protected-region error invokes the handler; the
first requested redirect wins, otherwise the original error is re-thrown. -/
lemma render_of_body_error_handler {settings : Settings} {options : RenderOptions}
    {init : InitResult} {pageRender : Params → String → Except Err PageRenderResult}
    {d : Nat} {e : Err} {handler : Err → OnErrorParameters → List String}
    (h : renderBody settings options init pageRender d = .error e)
    (hh : settings.onError = some handler) :
    render settings options (.ok init) pageRender d =
      match runRedirectCalls (handler e (mkOnErrorParameters options init)) with
      | some r =>
        { result := .ok (.redirect (normalizeRedirect r settings.basename))
          handlerInvoked := true }
      | none => { result := .error e, handlerInvoked := true } := by
  have e1 : render settings options (.ok init) pageRender d
      = applyCatch settings options init
          (renderBody settings options init pageRender d) := rfl
  rw [e1, h]
  unfold applyCatch
  rw [hh]

/-- On the reserved path the protected region takes the static-shell branch. -/
lemma renderBody_static {settings : Settings} {options : RenderOptions}
    {init : InitResult} {pageRender : Params → String → Except Err PageRenderResult}
    {d : Nat}
    (hpath : stripTrailingSlash (parseLocation options.url).pathname = "/react-website-base") :
    renderBody settings options init pageRender d =
      staticShellResult (outerHtmlContext settings options init) := by
  unfold renderBody
  rw [if_pos hpath]

/-- Off the reserved path, a resolved page render continues with the
ordinary branch body. -/
lemma renderBody_nonstatic {settings : Settings} {options : RenderOptions}
    {init : InitResult} {pageRender : Params → String → Except Err PageRenderResult}
    {d : Nat} {r : PageRenderResult}
    (hpath : ¬ stripTrailingSlash (parseLocation options.url).pathname = "/react-website-base")
    (hr : pageRender init.parameters settings.routes = .ok r) :
    renderBody settings options init pageRender d =
      pageResultBody settings options init (outerHtmlContext settings options init) d r := by
  unfold renderBody
  rw [if_neg hpath, hr]

/-- Off the reserved path, a page-render rejection is the protected-region
outcome. -/
lemma renderBody_renderError {settings : Settings} {options : RenderOptions}
    {init : InitResult} {pageRender : Params → String → Except Err PageRenderResult}
    {d : Nat} {e : Err}
    (hpath : ¬ stripTrailingSlash (parseLocation options.url).pathname = "/react-website-base")
    (hr : pageRender init.parameters settings.routes = .error e) :
    renderBody settings options init pageRender d = .error e := by
  unfold renderBody
  rw [if_neg hpath, hr]

/-- The static-shell branch on successful outer-HTML generation. -/
lemma staticShellResult_ok {ctx : OuterHtmlContext} {b a : String}
    (houter : generateOuterHtml ctx (some false) [] = .ok (b, a)) :
    staticShellResult ctx = .ok (.content
      { route := "/react-website-base"
        status := 200
        content := [.str (b ++ a)]
        time := none
        cookies := [] }) := by
  unfold staticShellResult
  rw [houter]

/-- The static-shell branch propagates an outer-HTML generation error. -/
lemma staticShellResult_error {ctx : OuterHtmlContext} {e : Err}
    (houter : generateOuterHtml ctx (some false) [] = .error e) :
    staticShellResult ctx = .error e := by
  unfold staticShellResult
  rw [houter]

/-- The ordinary branch returns immediately on a redirect descriptor. -/
lemma pageResultBody_redirect {settings : Settings} {options : RenderOptions}
    {init : InitResult} {ctx : OuterHtmlContext} {d : Nat} {r : PageRenderResult}
    {loc : Location}
    (hred : r.redirect = some loc) :
    pageResultBody settings options init ctx d r =
      .ok (.redirect (normalizeRedirect loc settings.basename)) := by
  unfold pageResultBody
  rw [hred]

/-- The ordinary branch assembles the content result on successful
outer-HTML generation. -/
lemma pageResultBody_content {settings : Settings} {options : RenderOptions}
    {init : InitResult} {ctx : OuterHtmlContext} {d : Nat} {r : PageRenderResult}
    {b a : String}
    (hred : r.redirect = none)
    (houter : generateOuterHtml ctx options.renderContent r.meta = .ok (b, a)) :
    pageResultBody settings options init ctx d r =
      .ok (.content
        { route := r.route
          status := r.status
          content := contentStreams b a options.renderContent
            (.node
              { container := settings.container
                props := r.containerProps
                content := r.content })
          time := some (objectSet r.time "initialize" d)
          cookies := init.cookies }) := by
  unfold pageResultBody
  rw [hred, houter]

/-- The ordinary branch propagates an outer-HTML generation error. -/
lemma pageResultBody_error {settings : Settings} {options : RenderOptions}
    {init : InitResult} {ctx : OuterHtmlContext} {d : Nat} {r : PageRenderResult}
    {e : Err}
    (hred : r.redirect = none)
    (houter : generateOuterHtml ctx options.renderContent r.meta = .error e) :
    pageResultBody settings options init ctx d r = .error e := by
  unfold pageResultBody
  rw [hred, houter]

/-- With content rendering not disabled, the page stream is spliced between
the two fragments. -/
lemma contentStreams_render {b a : String} {rc : Option Bool} {n : StreamPiece}
    (h : rc ≠ some false) :
    contentStreams b a rc n = [.str b, n, .str a] := by
  unfold contentStreams
  rw [if_pos h]
  norm_num [List.insertIdx_succ_cons, List.insertIdx_zero]

/-- With content rendering disabled, only the two fragments remain. -/
lemma contentStreams_noRender {b a : String} {n : StreamPiece}
    (h : (rc : Option Bool) = some false) :
    contentStreams b a rc n = [.str b, .str a] := by
  unfold contentStreams
  rw [if_neg (by simp [h])]

/-- Any-false propagates to find?-none. -/
lemma find?_eq_none_of_any_eq_false {α : Type} {f : α → Bool} :
    ∀ t : List α, t.any f = false → t.find? f = none := by
  intro t h
  induction t with
  | nil => rfl
  | cons x xs ih =>
    simp only [List.any_cons, Bool.or_eq_false_iff] at h
    rw [List.find?_cons_of_neg _ (by simp [h.1]), ih h.2]

/-- Updating an existing field in place sets the looked-up value. -/
lemma objectGet_map_set_self {k : String} {v : Nat} :
    ∀ t : List (String × Nat), t.any (fun p => p.1 == k) = true →
      objectGet (t.map (fun p => if p.1 == k then (p.1, v) else p)) k = some v := by
  intro t
  induction t with
  | nil => intro h; simp at h
  | cons p ps ih =>
    intro h
    by_cases hp : (p.1 == k) = true
    · have hpk : p.1 = k := by simpa using hp
      unfold objectGet
      simp only [List.map_cons, if_pos hp]
      rw [List.find?_cons_of_pos _ (by simpa using hp)]
      simp
    · have hps : ps.any (fun q => q.1 == k) = true := by
        simp only [List.any_cons, Bool.or_eq_true] at h
        rcases h with h1 | h2
        · exact absurd h1 hp
        · exact h2
      unfold objectGet
      simp only [List.map_cons, if_neg hp]
      rw [List.find?_cons_of_neg _ (by simpa using hp)]
      simpa [objectGet] using ih hps

/-- Updating one field in place leaves every other lookup unchanged. -/
lemma objectGet_map_set_ne {k k' : String} {v : Nat} (hne : k' ≠ k) :
    ∀ t : List (String × Nat),
      objectGet (t.map (fun p => if p.1 == k then (p.1, v) else p)) k' = objectGet t k' := by
  intro t
  induction t with
  | nil => rfl
  | cons p ps ih =>
    by_cases hp : (p.1 == k) = true
    · have hpk : p.1 = k := by simpa using hp
      have hq : ¬ ((p.1 == k') = true) := by
        rw [hpk]
        simp only [beq_iff_eq]
        exact fun hc => hne hc.symm
      unfold objectGet
      simp only [List.map_cons, if_pos hp]
      rw [List.find?_cons_of_neg _ (by simpa using hq),
        List.find?_cons_of_neg _ (by simpa using hq)]
      simpa [objectGet] using ih
    · unfold objectGet
      simp only [List.map_cons, if_neg hp]
      by_cases hq : (p.1 == k') = true
      · rw [List.find?_cons_of_pos (p := fun q : String × Nat => q.1 == k') _ hq,
          List.find?_cons_of_pos (p := fun q : String × Nat => q.1 == k') _ hq]
      · rw [List.find?_cons_of_neg (p := fun q : String × Nat => q.1 == k') _ (by simpa using hq),
          List.find?_cons_of_neg (p := fun q : String × Nat => q.1 == k') _ (by simpa using hq)]
        simpa [objectGet] using ih

/-- A lookup that misses the first list skips over it. -/
lemma objectGet_append_of_none {k : String} {t rest : List (String × Nat)}
    (h : t.find? (fun p => p.1 == k) = none) :
    objectGet (t ++ rest) k = objectGet rest k := by
  unfold objectGet
  rw [List.find?_append, h]
  rfl

/-- Appending a differently-named field leaves a lookup unchanged. -/
lemma objectGet_append_single_ne {k k' : String} {v : Nat} (hne : k' ≠ k)
    (t : List (String × Nat)) :
    objectGet (t ++ [(k, v)]) k' = objectGet t k' := by
  unfold objectGet
  rw [List.find?_append]
  have hsingle : List.find? (fun p => p.1 == k') [(k, v)] = none := by
    rw [List.find?_cons_of_neg]
    · rfl
    · simp only [beq_iff_eq]
      exact fun hc => hne hc.symm
  rw [hsingle]
  cases t.find? (fun p => p.1 == k') <;> rfl

/-- Setting a field makes its lookup return the new value. -/
lemma objectGet_objectSet_self (t : List (String × Nat)) (k : String) (v : Nat) :
    objectGet (objectSet t k v) k = some v := by
  unfold objectSet
  by_cases hany : t.any (fun p => p.1 == k) = true
  · rw [if_pos hany]
    exact objectGet_map_set_self t hany
  · rw [if_neg hany]
    have hfalse : t.any (fun p => p.1 == k) = false := by
      cases hb : t.any (fun p => p.1 == k) with
      | false => rfl
      | true => exact absurd hb hany
    have hnone : t.find? (fun p => p.1 == k) = none :=
      find?_eq_none_of_any_eq_false t hfalse
    rw [objectGet_append_of_none hnone]
    unfold objectGet
    rw [List.find?_cons_of_pos _ (by simp)]
    rfl

/-- Setting a field leaves every other lookup unchanged. -/
lemma objectGet_objectSet_ne (t : List (String × Nat)) (k : String) (v : Nat)
    (k' : String) (hne : k' ≠ k) :
    objectGet (objectSet t k v) k' = objectGet t k' := by
  unfold objectSet
  by_cases hany : t.any (fun p => p.1 == k) = true
  · rw [if_pos hany]
    exact objectGet_map_set_ne hne t
  · rw [if_neg hany]
    exact objectGet_append_single_ne hne t

/-- With content rendering disabled, the after-content fragment starts with
the content-not-rendered marker. -/
lemma render_after_content_marker (args : AfterContentArgs)
    (h : args.contentNotRendered = true) :
    ∃ rest, render_after_content args = contentNotRenderedMarker ++ rest := by
  unfold render_after_content
  rw [h]
  exact ⟨_, rfl⟩

/-- Successful outer-HTML generation yields exactly the two template
fragments, with `contentNotRendered` decided by the `renderContent` value
the closure read. -/
lemma generateOuterHtml_ok_inv {ctx : OuterHtmlContext} {renderContent : Option Bool}
    {meta : List (String × String)} {b a : String}
    (h : generateOuterHtml ctx renderContent meta = .ok (b, a)) :
    ∃ assets, resolveEntries (ctx.assets.resolve ctx.path ctx.parameters) = .ok assets
      ∧ a = render_after_content
          { javascript := ctx.generateJavascript
            assets := assets
            locale := ctx.locales.head?
            bodyEnd := ctx.html.bodyEnd.map (fun v => v.resolve ctx.path ctx.parameters)
            protected_cookie_value := ctx.protected_cookie_value
            contentNotRendered := renderContent == some false } := by
  unfold generateOuterHtml at h
  cases hre : resolveEntries (ctx.assets.resolve ctx.path ctx.parameters) with
  | error e => rw [hre] at h; cases h
  | ok assets =>
    rw [hre] at h
    refine ⟨assets, rfl, ?_⟩
    have := congrArg (fun p : String × String => p.2) (Except.ok.inj h)
    exact this.symm

/-! Claim theorems. -/

/-- Claim C1: for every render call whose path is not the reserved
static-export path, whose Page Renderer result contains no redirect, and
whose `renderContent` option is not `false`, the returned content stream is
the concatenation of exactly three pieces in this order: the before-content
HTML fragment, the rendered page element stream, and the after-content HTML
fragment (the page stream is spliced at index 1, between the two fixed
fragments). -/
theorem c1_content_stream_order
    (settings : Settings) (options : RenderOptions) (init : InitResult)
    (pageRender : Params → String → Except Err PageRenderResult)
    (d : Nat) (r : PageRenderResult) (b a : String)
    (hpath : stripTrailingSlash (parseLocation options.url).pathname ≠ "/react-website-base")
    (hr : pageRender init.parameters settings.routes = .ok r)
    (hred : r.redirect = none)
    (hrc : options.renderContent ≠ some false)
    (houter : generateOuterHtml (outerHtmlContext settings options init)
        options.renderContent r.meta = .ok (b, a)) :
    (render settings options (.ok init) pageRender d).result =
      .ok (.content
        { route := r.route
          status := r.status
          content :=
            [ .str b,
              .node
                { container := settings.container
                  props := r.containerProps
                  content := r.content },
              .str a ]
          time := some (objectSet r.time "initialize" d)
          cookies := init.cookies }) := by
  have hbody : renderBody settings options init pageRender d =
      .ok (.content
        { route := r.route
          status := r.status
          content := contentStreams b a options.renderContent
            (.node
              { container := settings.container
                props := r.containerProps
                content := r.content })
          time := some (objectSet r.time "initialize" d)
          cookies := init.cookies }) := by
    rw [renderBody_nonstatic hpath hr, pageResultBody_content hred houter]
  rw [render_of_body_ok hbody]
  rw [contentStreams_render hrc]

/-- Claim C1 witness at concrete inputs. -/
theorem c1_witness :
    (render sampleSettings sampleOptions (.ok sampleInit) samplePageRender 5).result =
      .ok (.content
        { route := "/foo"
          status := 200
          content :=
            [ .str sampleOuter.1,
              .node
                { container := "AppContainer"
                  props := "propsValue"
                  content := "HelloContent" },
              .str sampleOuter.2 ]
          time := some [("fetch", 7), ("initialize", 5)]
          cookies := ["sid=1"] }) :=
  c1_content_stream_order sampleSettings sampleOptions sampleInit samplePageRender 5
    samplePageResult sampleOuter.1 sampleOuter.2 (by decide) rfl rfl (by decide) rfl

/-- Claim C2: for every render call whose request URL pathname, after
stripping a single trailing slash, equals `/react-website-base`, the
function returns a content result with status 200, content equal to the
before-content fragment concatenated with the after-content fragment, no
page element rendered, and the after-content fragment carries the
content-not-rendered marker (renderContent forced to `false`). -/
theorem c2_static_shell
    (settings : Settings) (options : RenderOptions) (init : InitResult)
    (pageRender : Params → String → Except Err PageRenderResult)
    (d : Nat) (b a : String)
    (hpath : stripTrailingSlash (parseLocation options.url).pathname = "/react-website-base")
    (houter : generateOuterHtml (outerHtmlContext settings options init)
        (some false) [] = .ok (b, a)) :
    (render settings options (.ok init) pageRender d).result =
      .ok (.content
        { route := "/react-website-base"
          status := 200
          content := [.str (b ++ a)]
          time := none
          cookies := [] })
    ∧ ∃ rest, a = contentNotRenderedMarker ++ rest := by
  constructor
  · have hbody : renderBody settings options init pageRender d =
        .ok (.content
          { route := "/react-website-base"
            status := 200
            content := [.str (b ++ a)]
            time := none
            cookies := [] }) := by
      rw [renderBody_static hpath, staticShellResult_ok houter]
    rw [render_of_body_ok hbody]
  · obtain ⟨assets, -, ha⟩ := generateOuterHtml_ok_inv houter
    rw [ha]
    exact render_after_content_marker _ rfl

/-- Claim C2 witness at concrete inputs. -/
theorem c2_witness :
    (render sampleSettings staticOptions (.ok sampleInit) samplePageRender 5).result =
      .ok (.content
        { route := "/react-website-base"
          status := 200
          content := [.str (staticOuter.1 ++ staticOuter.2)]
          time := none
          cookies := [] })
    ∧ ∃ rest, staticOuter.2 = contentNotRenderedMarker ++ rest :=
  c2_static_shell sampleSettings staticOptions sampleInit samplePageRender 5
    staticOuter.1 staticOuter.2 (by decide) rfl

/-- Claim C3: for every render call in which the State Initializer call
rejects with some error, the render function rejects with that same error
and the configured error-handler callback is never invoked, regardless of
whether an error handler is configured (the initializer call lies outside
the protected region). -/
theorem c3_initializer_error_uncaught
    (settings : Settings) (options : RenderOptions)
    (pageRender : Params → String → Except Err PageRenderResult)
    (d : Nat) (e : Err) :
    render settings options (.error e) pageRender d =
      { result := .error e, handlerInvoked := false } := rfl

/-- Claim C4: for every render call in which the Page Renderer rejects with
an error and an error handler is configured: if the handler invokes the
redirect function it is given with a target location, the render call
resolves to a redirect result whose string is the basename-normalized form
of that target; if the handler never invokes the redirect function, the
render call rejects with the original error unchanged. -/
theorem c4_page_render_error_handling
    (settings : Settings) (options : RenderOptions) (init : InitResult)
    (pageRender : Params → String → Except Err PageRenderResult)
    (d : Nat) (e : Err) (handler : Err → OnErrorParameters → List String)
    (hpath : stripTrailingSlash (parseLocation options.url).pathname ≠ "/react-website-base")
    (hr : pageRender init.parameters settings.routes = .error e)
    (hh : settings.onError = some handler) :
    (∀ (target : String) (rest : List String),
        handler e (mkOnErrorParameters options init) = target :: rest →
        render settings options (.ok init) pageRender d =
          { result := .ok (.redirect
              (normalizeRedirect (parseLocation target) settings.basename))
            handlerInvoked := true })
    ∧ (handler e (mkOnErrorParameters options init) = [] →
        render settings options (.ok init) pageRender d =
          { result := .error e, handlerInvoked := true }) := by
  have hbody : renderBody settings options init pageRender d = .error e :=
    renderBody_renderError hpath hr
  have hmain := render_of_body_error_handler hbody hh
  constructor
  · intro target rest hcalls
    rw [hmain, hcalls, runRedirectCalls_cons]
  · intro hcalls
    rw [hmain, hcalls, runRedirectCalls_nil]

/-- Claim C4 witness at concrete inputs: the redirecting handler yields the
basename-normalized redirect, the silent handler re-throws the original
error. -/
theorem c4_witness :
    render handlerSettings sampleOptions (.ok sampleInit) failingPageRender 5 =
      { result := .ok (.redirect "/app/login"), handlerInvoked := true }
    ∧ render silentSettings sampleOptions (.ok sampleInit) failingPageRender 5 =
      { result := .error networkError, handlerInvoked := true } :=
  ⟨(c4_page_render_error_handling handlerSettings sampleOptions sampleInit
      failingPageRender 5 networkError redirectingHandler
      (by decide) rfl rfl).1 "/login" ["/second"] rfl,
    (c4_page_render_error_handling silentSettings sampleOptions sampleInit
      failingPageRender 5 networkError silentHandler
      (by decide) rfl rfl).2 rfl⟩

/-- Claim C5: only the first call to the redirect function has any effect:
the recorded redirect is the parse of the first requested target, any call
made once a redirect is recorded is a no-op, and further calls after the
first do not change the recorded result. -/
theorem c5_first_redirect_wins :
    (∀ calls : List String,
        runRedirectCalls calls = calls.head?.map (fun target => parseLocation target))
    ∧ (∀ (loc : Location) (target : String), redirectStep (some loc) target = some loc)
    ∧ (∀ (first : String) (rest : List String),
        runRedirectCalls (first :: rest) = runRedirectCalls [first]) := by
  refine ⟨?_, ?_, ?_⟩
  · intro calls
    cases calls with
    | nil => rfl
    | cons c cs => rw [runRedirectCalls_cons]; rfl
  · intro loc target
    rfl
  · intro first rest
    rw [runRedirectCalls_cons, runRedirectCalls_cons]

/-- Claim C6: when the resolved assets object has no `entries` field: if it
has a `javascript.main` entry, entries defaults to `["main"]` and
generation proceeds; otherwise generation throws an error whose message
identifies the missing `assets.entries[]` configuration requirement. -/
theorem c6_assets_entries_default_or_error
    (a : AssetsCfg) (h : a.entries = none) :
    (∀ js : JsAssets, a.javascript = some js → js.main.isSome = true →
        resolveEntries a = .ok { a with entries := some ["main"] })
    ∧ ((a.javascript = none ∨ ∃ js, a.javascript = some js ∧ js.main = none) →
        resolveEntries a = .error (.config assetsEntriesErrorMessage)
        ∧ (∀ (ctx : OuterHtmlContext) (rc : Option Bool) (meta : List (String × String)),
            ctx.assets.resolve ctx.path ctx.parameters = a →
            generateOuterHtml ctx rc meta = .error (.config assetsEntriesErrorMessage)))
    ∧ mentionsAssetsEntries assetsEntriesErrorMessage = true := by
  refine ⟨?_, ?_, ?_⟩
  · intro js hjs hm
    obtain ⟨m, hmm⟩ := Option.isSome_iff_exists.mp hm
    simp [resolveEntries, h, hjs, hmm]
  · intro hcase
    have herr : resolveEntries a = .error (.config assetsEntriesErrorMessage) := by
      rcases hcase with hn | ⟨js, hjs, hm⟩
      · simp [resolveEntries, h, hn]
      · simp [resolveEntries, h, hjs, hm]
    refine ⟨herr, ?_⟩
    intro ctx rc meta hresolve
    unfold generateOuterHtml
    rw [hresolve, herr]
  · decide

/-- Claim C6 witness at concrete inputs: a `main` javascript asset defaults
the entries, an empty asset descriptor raises the configuration error. -/
theorem c6_witness :
    resolveEntries mainOnlyAssets = .ok { mainOnlyAssets with entries := some ["main"] }
    ∧ resolveEntries emptyAssets = .error (.config assetsEntriesErrorMessage) :=
  ⟨(c6_assets_entries_default_or_error mainOnlyAssets rfl).1
      { main := some "main.js" } rfl rfl,
    ((c6_assets_entries_default_or_error emptyAssets rfl).2.1 (Or.inl rfl)).1⟩

/-- Claim C7: for every successful content result of a non-special path, the
time field equals the Page Renderer timing extended with an `initialize`
field equal to the measured duration of the State Initializer call; the
`initialize` lookup returns that duration and every other timing lookup of
the Page Renderer is preserved. -/
theorem c7_time_composition
    (settings : Settings) (options : RenderOptions) (init : InitResult)
    (pageRender : Params → String → Except Err PageRenderResult)
    (d : Nat) (r : PageRenderResult) (b a : String)
    (hpath : stripTrailingSlash (parseLocation options.url).pathname ≠ "/react-website-base")
    (hr : pageRender init.parameters settings.routes = .ok r)
    (hred : r.redirect = none)
    (houter : generateOuterHtml (outerHtmlContext settings options init)
        options.renderContent r.meta = .ok (b, a)) :
    (render settings options (.ok init) pageRender d).result =
      .ok (.content
        { route := r.route
          status := r.status
          content := contentStreams b a options.renderContent
            (.node
              { container := settings.container
                props := r.containerProps
                content := r.content })
          time := some (objectSet r.time "initialize" d)
          cookies := init.cookies })
    ∧ objectGet (objectSet r.time "initialize" d) "initialize" = some d
    ∧ (∀ k, k ≠ "initialize" →
        objectGet (objectSet r.time "initialize" d) k = objectGet r.time k) := by
  refine ⟨?_, objectGet_objectSet_self r.time "initialize" d, ?_⟩
  · have hbody : renderBody settings options init pageRender d =
        .ok (.content
          { route := r.route
            status := r.status
            content := contentStreams b a options.renderContent
              (.node
                { container := settings.container
                  props := r.containerProps
                  content := r.content })
            time := some (objectSet r.time "initialize" d)
            cookies := init.cookies }) := by
      rw [renderBody_nonstatic hpath hr, pageResultBody_content hred houter]
    rw [render_of_body_ok hbody]
  · intro k hk
    exact objectGet_objectSet_ne r.time "initialize" d k hk

/-- Claim C7 witness at concrete inputs: `initialize` is 5 and the
renderer's `fetch` timing is preserved. -/
theorem c7_witness :
    (render sampleSettings sampleOptions (.ok sampleInit) samplePageRender 5).result =
      .ok (.content
        { route := "/foo"
          status := 200
          content := contentStreams sampleOuter.1 sampleOuter.2 none
            (.node
              { container := "AppContainer"
                props := "propsValue"
                content := "HelloContent" })
          time := some [("fetch", 7), ("initialize", 5)]
          cookies := ["sid=1"] })
    ∧ objectGet [("fetch", 7), ("initialize", 5)] "initialize" = some 5
    ∧ objectGet [("fetch", 7), ("initialize", 5)] "fetch" = some 7 := by
  obtain ⟨h1, h2, h3⟩ := c7_time_composition sampleSettings sampleOptions sampleInit
    samplePageRender 5 samplePageResult sampleOuter.1 sampleOuter.2
    (by decide) rfl rfl rfl
  exact ⟨h1, h2, h3 "fetch" (by decide)⟩

/-- Claim C8: for every redirect result the returned string equals the full
serialization of the target location with the configured basename prepended
when the target is relative; the normalizer is a pure function of the
target and basename (for example basename `/app` with target `/foo` yields
`/app/foo`), and the Page Renderer redirect branch returns exactly this
normalization. -/
theorem c8_redirect_normalization :
    (∀ (loc : Location) (basename : String), loc.origin = "" →
        normalizeRedirect loc (some basename) =
          basename ++ loc.pathname ++ loc.search ++ loc.hash)
    ∧ normalizeRedirect (parseLocation "/foo") (some "/app") = "/app/foo"
    ∧ (∀ (settings : Settings) (options : RenderOptions) (init : InitResult)
        (pageRender : Params → String → Except Err PageRenderResult)
        (d : Nat) (r : PageRenderResult) (loc : Location),
        stripTrailingSlash (parseLocation options.url).pathname ≠ "/react-website-base" →
        pageRender init.parameters settings.routes = .ok r →
        r.redirect = some loc →
        (render settings options (.ok init) pageRender d).result =
          .ok (.redirect (normalizeRedirect loc settings.basename))) := by
  refine ⟨?_, by decide, ?_⟩
  · intro loc basename horigin
    unfold normalizeRedirect getLocationUrl
    rw [horigin]
    simp
  · intro settings options init pageRender d r loc hpath hr hred
    have hbody : renderBody settings options init pageRender d =
        .ok (.redirect (normalizeRedirect loc settings.basename)) := by
      rw [renderBody_nonstatic hpath hr, pageResultBody_redirect hred]
    rw [render_of_body_ok hbody]

/-- Claim C8 witness at concrete inputs: a relative location gets the
basename prefix, and a renderer redirect descriptor round-trips through the
normalizer. -/
theorem c8_witness :
    normalizeRedirect (parseLocation "/x?q=1") (some "/b") = "/b/x?q=1"
    ∧ (render sampleSettings sampleOptions (.ok sampleInit) redirectPageRender 5).result =
      .ok (.redirect "/app/target") :=
  ⟨(c8_redirect_normalization.1 (parseLocation "/x?q=1") "/b" rfl),
    c8_redirect_normalization.2.2 sampleSettings sampleOptions sampleInit
      redirectPageRender 5 redirectPageResult (parseLocation "/target")
      (by decide) rfl rfl⟩

/-- Claim C9: a configuration error thrown by outer-HTML generation is
caught by the same protected region as page-render errors: with no handler
it propagates; with a handler that requests no redirect it propagates after
the handler ran; with a handler that requests a redirect the render call
resolves to that redirect. -/
theorem c9_config_error_protected
    (settings : Settings) (options : RenderOptions) (init : InitResult)
    (pageRender : Params → String → Except Err PageRenderResult)
    (d : Nat) (r : PageRenderResult) (m : String)
    (hpath : stripTrailingSlash (parseLocation options.url).pathname ≠ "/react-website-base")
    (hr : pageRender init.parameters settings.routes = .ok r)
    (hred : r.redirect = none)
    (houter : generateOuterHtml (outerHtmlContext settings options init)
        options.renderContent r.meta = .error (.config m)) :
    (settings.onError = none →
        (render settings options (.ok init) pageRender d).result = .error (.config m))
    ∧ (∀ handler : Err → OnErrorParameters → List String,
        settings.onError = some handler →
        handler (.config m) (mkOnErrorParameters options init) = [] →
        (render settings options (.ok init) pageRender d).result = .error (.config m))
    ∧ (∀ (handler : Err → OnErrorParameters → List String)
        (target : String) (rest : List String),
        settings.onError = some handler →
        handler (.config m) (mkOnErrorParameters options init) = target :: rest →
        (render settings options (.ok init) pageRender d).result =
          .ok (.redirect (normalizeRedirect (parseLocation target) settings.basename))) := by
  have hbody : renderBody settings options init pageRender d = .error (.config m) := by
    rw [renderBody_nonstatic hpath hr, pageResultBody_error hred houter]
  refine ⟨?_, ?_, ?_⟩
  · intro hnone
    rw [render_of_body_error_noHandler hbody hnone]
  · intro handler hh hcalls
    rw [render_of_body_error_handler hbody hh, hcalls, runRedirectCalls_nil]
  · intro handler target rest hh hcalls
    rw [render_of_body_error_handler hbody hh, hcalls, runRedirectCalls_cons]

/-- Claim C9 witness at concrete inputs: without a handler the missing
entries error propagates; with the redirecting handler it becomes a
basename-normalized redirect. -/
theorem c9_witness :
    (render sampleSettings badOptions (.ok sampleInit) samplePageRender 5).result =
      .error (.config assetsEntriesErrorMessage)
    ∧ (render handlerSettings badOptions (.ok sampleInit) samplePageRender 5).result =
      .ok (.redirect "/app/login") :=
  ⟨(c9_config_error_protected sampleSettings badOptions sampleInit samplePageRender 5
      samplePageResult assetsEntriesErrorMessage (by decide) rfl rfl rfl).1 rfl,
    (c9_config_error_protected handlerSettings badOptions sampleInit samplePageRender 5
      samplePageResult assetsEntriesErrorMessage (by decide) rfl rfl rfl).2.2
      redirectingHandler "/login" ["/second"] rfl rfl⟩

/-- Claim C10: every render call taking the reserved static-export branch
returns a result whose cookies field is the empty list (the initializer
cookies are discarded) and which has no time field, unlike the normal
content result, which returns the initializer cookies and a time object. -/
theorem c10_static_discards_cookies_and_time
    (settings : Settings) (options : RenderOptions) (init : InitResult)
    (pageRender : Params → String → Except Err PageRenderResult)
    (d : Nat) (b a : String)
    (hpath : stripTrailingSlash (parseLocation options.url).pathname = "/react-website-base")
    (houter : generateOuterHtml (outerHtmlContext settings options init)
        (some false) [] = .ok (b, a)) :
    ((render settings options (.ok init) pageRender d).result =
      .ok (.content
        { route := "/react-website-base"
          status := 200
          content := [.str (b ++ a)]
          time := none
          cookies := [] }))
    ∧ (∀ (options' : RenderOptions)
        (pageRender' : Params → String → Except Err PageRenderResult)
        (r : PageRenderResult) (b' a' : String),
        stripTrailingSlash (parseLocation options'.url).pathname ≠ "/react-website-base" →
        pageRender' init.parameters settings.routes = .ok r →
        r.redirect = none →
        generateOuterHtml (outerHtmlContext settings options' init)
          options'.renderContent r.meta = .ok (b', a') →
        ∃ c : ContentResult,
          (render settings options' (.ok init) pageRender' d).result = .ok (.content c)
          ∧ c.cookies = init.cookies
          ∧ c.time = some (objectSet r.time "initialize" d)) := by
  constructor
  · have hbody : renderBody settings options init pageRender d =
        .ok (.content
          { route := "/react-website-base"
            status := 200
            content := [.str (b ++ a)]
            time := none
            cookies := [] }) := by
      rw [renderBody_static hpath, staticShellResult_ok houter]
    rw [render_of_body_ok hbody]
  · intro options' pageRender' r b' a' hpath' hr' hred' houter'
    have hbody : renderBody settings options' init pageRender' d =
        .ok (.content
          { route := r.route
            status := r.status
            content := contentStreams b' a' options'.renderContent
              (.node
                { container := settings.container
                  props := r.containerProps
                  content := r.content })
            time := some (objectSet r.time "initialize" d)
            cookies := init.cookies }) := by
      rw [renderBody_nonstatic hpath' hr', pageResultBody_content hred' houter']
    exact ⟨{ route := r.route
             status := r.status
             content := contentStreams b' a' options'.renderContent
               (.node
                 { container := settings.container
                   props := r.containerProps
                   content := r.content })
             time := some (objectSet r.time "initialize" d)
             cookies := init.cookies },
      by rw [render_of_body_ok hbody], rfl, rfl⟩

/-- Claim C10 witness at concrete inputs: the static branch discards the
nonempty initializer cookies and carries no time field, while the normal
branch returns them. -/
theorem c10_witness :
    ((render sampleSettings staticOptions (.ok sampleInit) samplePageRender 5).result =
      .ok (.content
        { route := "/react-website-base"
          status := 200
          content := [.str (staticOuter.1 ++ staticOuter.2)]
          time := none
          cookies := [] }))
    ∧ ∃ c : ContentResult,
        (render sampleSettings sampleOptions (.ok sampleInit) samplePageRender 5).result =
          .ok (.content c)
        ∧ c.cookies = ["sid=1"]
        ∧ c.time = some [("fetch", 7), ("initialize", 5)] := by
  obtain ⟨h1, h2⟩ := c10_static_discards_cookies_and_time sampleSettings staticOptions
    sampleInit samplePageRender 5 staticOuter.1 staticOuter.2 (by decide) rfl
  exact ⟨h1, h2 sampleOptions samplePageRender samplePageResult
    sampleOuter.1 sampleOuter.2 (by decide) rfl rfl rfl⟩

end ReactPages
